import Mathlib

/-
Verification development for the TabularMagic reporting and feature-selection
layer. The Python sources are shallowly embedded: pandas DataFrames are
abstracted as their ordered list of column labels, scorers and models are
records holding the tables and flags the report layer reads, Python
exceptions become `Except String`, and console warnings are collected in a
result record. Python dict comprehensions keyed by model name are embedded
with insertion-order semantics (a repeated key keeps its first position and
takes the last value).
-/

namespace TabularMagic

/-- A pandas DataFrame, abstracted as its ordered list of column labels.
Column-wise concatenation (`pd.concat(..., axis=1)`) becomes list append. -/
abbrev DF := List String

/-- Result of a report operation that follows the soft-failure policy:
an optional value (`none` models Python's `None` return) together with the
list of warning messages printed to the console during the call. -/
structure Res (α : Type) where
  value : Option α
  warnings : List String
deriving Repr, DecidableEq

/-- Embeds `pd.concat(objs, axis=1)`: `None` entries are dropped silently;
if nothing remains to concatenate, pandas raises a `ValueError`. -/
def pd_concat_cols (objs : List (Option DF)) : Except String DF :=
  let present := objs.filterMap id
  if present.isEmpty then
    .error "ValueError: No objects to concatenate"
  else
    .ok present.flatten

/-- Left-to-right evaluation of a Python list comprehension whose body may
raise: the first raised exception propagates, otherwise the list of results
is produced in order. -/
def exceptMapList {α β : Type} (f : α → Except String β) : List α → Except String (List β)
  | [] => .ok []
  | a :: as => do
    let b ← f a
    let bs ← exceptMapList f as
    pure (b :: bs)

/-- One step of building a Python dict: `d[k] = v`. If the key is present its
value is replaced in place (the key keeps its original position); otherwise
the pair is appended at the end, per insertion-order dict semantics. -/
def dictUpsert {α : Type} (d : List (String × α)) (k : String) (v : α) : List (String × α) :=
  if d.any (fun p => p.1 == k) then
    d.map (fun p => if p.1 = k then (p.1, v) else p)
  else
    d ++ [(k, v)]

/-- A Python dict comprehension `{key(m): f(m) for m in ms}`. -/
def pyDict {μ α : Type} (key : μ → String) (f : μ → α) (ms : List μ) : List (String × α) :=
  ms.foldl (fun d m => dictUpsert d (key m) (f m)) []

/-- Dict lookup `d[k]`, with `none` modelling the `KeyError` case. -/
def dictGet {α : Type} (d : List (String × α)) (k : String) : Option α :=
  (d.find? (fun p => p.1 == k)).map Prod.snd

/-- Dict `values()` view, in insertion order. -/
def dictValues {α : Type} (d : List (String × α)) : List α :=
  d.map Prod.snd

section FeatureSelection

/-- The training split as seen by the feature selectors: the predictor column
names of `X_train` together with the outputs of the external numerical
routines on `(X_train, y_train)` — the per-feature univariate scores used by
`SelectKBest` (from `f_regression` / `r_regression` /
`mutual_info_regression`) and the fitted Lasso coefficients used by
`SelectFromModel`. The external library produces one score and one
coefficient per predictor column. -/
structure TrainData where
  columns : List String
  scores : List ℚ
  lassoCoefs : List ℚ
deriving Repr

/-- Embeds sklearn's `SelectKBest._get_support_mask`: feature `i` is kept
exactly when it lands in the top `k` of a stable ascending argsort of the
scores, i.e. when fewer than `k` features come strictly after it in that
order (a later feature has a larger score, or an equal score and a larger
original index). -/
def kbestSupport (scores : List ℚ) (k : Nat) : List Bool :=
  let n := scores.length
  (List.range n).map (fun i =>
    decide (((List.range n).filter (fun j =>
      decide (scores.getD i 0 < scores.getD j 0) ||
        (decide (scores.getD j 0 = scores.getD i 0) && decide (i < j)))).length < k))

/-- The default importance threshold sklearn applies to an L1-penalized
(prefit Lasso) estimator inside `SelectFromModel`: 1e-5. -/
def lassoThreshold : ℚ := 1 / 100000

/-- Embeds sklearn's `SelectFromModel._get_support_mask` for a prefit Lasso
with `max_features` set: feature `i` is kept when its importance (absolute
coefficient) reaches the threshold and it lands among the top `max_features`
of a stable descending argsort of the importances. -/
def selectFromModelSupport (coefs : List ℚ) (max_n_features : Nat) : List Bool :=
  let imps := coefs.map (fun c => |c|)
  let n := imps.length
  (List.range n).map (fun i =>
    decide (lassoThreshold ≤ imps.getD i 0) &&
      decide (((List.range n).filter (fun j =>
        decide (imps.getD i 0 < imps.getD j 0) ||
          (decide (imps.getD j 0 = imps.getD i 0) && decide (j < i)))).length < max_n_features))

/-- Embeds sklearn's `get_feature_names_out` on a fitted selector: the input
feature names at the positions where the boolean support mask is true, in
order. -/
def featureNamesOut (input_features : List String) (support : List Bool) : List String :=
  ((input_features.zip support).filter (fun p => p.2)).map Prod.fst

/-- The triple returned by `select`: all features, selected features, and the
boolean support mask. -/
structure FSResult where
  all_features : List String
  selected_features : List String
  support : List Bool
deriving Repr, DecidableEq

/-- `KBestSelectorR`: selects the k best features based on the chosen scoring
routine. The scorer choice only changes which external routine produced the
scores held by the emitted training data. -/
structure KBestSelectorR where
  scorer : String
  k : Nat
deriving Repr

/-- `KBestSelectorR.select`: reads the training split's column names, fits
the external `SelectKBest`, and returns all features, the selector's
`get_feature_names_out()`, and its `get_support()` mask. -/
def KBestSelectorR.select (s : KBestSelectorR) (em : TrainData) : FSResult :=
  let all_features := em.columns
  let support := kbestSupport em.scores s.k
  { all_features := all_features
    selected_features := featureNamesOut all_features support
    support := support }

/-- `LassoSelectorR`: selects at most `max_n_features` features via the
model-inherent selection of a fitted Lasso regression. -/
structure LassoSelectorR where
  max_n_features : Nat
  alpha : ℚ
deriving Repr

/-- `LassoSelectorR.select`: reads the training split's column names, fits
the external `SelectFromModel` over the prefit Lasso, and returns all
features, `get_feature_names_out()`, and `get_support()`. -/
def LassoSelectorR.select (s : LassoSelectorR) (em : TrainData) : FSResult :=
  let all_features := em.columns
  let support := selectFromModelSupport em.lassoCoefs s.max_n_features
  { all_features := all_features
    selected_features := featureNamesOut all_features support
    support := support }

end FeatureSelection

section WarningMessages

/-- Warning printed when cross-validated statistics are requested for a model
that was not cross-validated. -/
def cvWarnMsg : String :=
  "Cross validation statistics are not available for models that are not cross-validated."

/-- Warning printed when cross-validated statistics are requested for the
test dataset. -/
def cvTestWarnMsg : String :=
  "Cross validation statistics are not available for test data."

/-- Warning printed when per-class fit statistics are requested on a binary
classification report. -/
def byClassWarnMsg : String :=
  "Fit statistics by class are not available for binary classification."

/-- Warning printed when an ROC curve is requested on a multiclass
classification report. -/
def rocWarnMsg : String :=
  "ROC curve is not available for multiclass classification."

/-- The `ValueError` raised by the single-model/single-dataset report
initializers on an invalid dataset selector. -/
def datasetErrMsg : String :=
  "ValueError: dataset must be either \"train\" or \"test\"."

/-- The `IndexError` raised by `self._models[0]` on an empty model list. -/
def indexErrMsg : String :=
  "IndexError: list index out of range"

/-- The `AttributeError` raised when `cv_scorer` is `None` but one of its
table methods is called. -/
def attributeErrMsg : String :=
  "AttributeError: NoneType has no scorer attribute"

end WarningMessages

section Models

/-- An attached classification scorer (external collaborator): whether it is
a `ClassificationBinaryScorer` (the dynamic type check performed by the
report), its statistics tables, and the stored prediction scores and ground
truth read by the ROC plotting path. -/
structure ClassScorer where
  binary : Bool
  stats_df : DF
  stats_by_class_df : DF
  y_pred_score : List ℚ
  y_true : List ℚ
deriving Repr, DecidableEq

/-- An attached cross-validation scorer (external collaborator): the
averaged-across-folds table, the per-fold table, and the per-class
variants. -/
structure CVScorer where
  stats_df : DF
  cv_stats_df : DF
  stats_by_class_df : DF
  cv_stats_by_class_df : DF
deriving Repr, DecidableEq

/-- A fitted `BaseClassification` model as the report layer reads it: its
name (the lookup identifier), its train/test scorers, the optional overall
scorer produced by nested cross validation, the optional cross-validation
scorer, and the `_is_cross_validated()` predicate. -/
structure ClassModel where
  name : String
  train_scorer : ClassScorer
  test_scorer : ClassScorer
  train_overall_scorer : Option ClassScorer
  cv_scorer : Option CVScorer
  is_cross_validated : Bool
deriving Repr, DecidableEq

/-- An attached regression scorer (external collaborator). -/
structure RegScorer where
  stats_df : DF
deriving Repr, DecidableEq

/-- A fitted `BaseRegression` model as the report layer reads it. -/
structure RegModel where
  name : String
  train_scorer : RegScorer
  test_scorer : RegScorer
  cv_scorer : Option CVScorer
  is_cross_validated : Bool
deriving Repr, DecidableEq

end Models

section ClassReports

/-- A rendered figure, abstracted as the (scores, truths) data handed to the
external plotting collaborator. -/
abbrev Figure := List ℚ × List ℚ

/-- The external `plot_roc_curve` collaborator, abstracted as retaining the
scores and truths it renders (figure size and axes omitted: they do not
affect which scorer's data is plotted). -/
def plot_roc_curve_fn (y_score : List ℚ) (y_true : List ℚ) : Figure :=
  (y_score, y_true)

/-- `SingleModelSingleDatasetMLClassReport`: one classification model, one
dataset partition, plus the binary-task flag detected at construction. -/
structure SingleModelSingleDatasetMLClassReport where
  model : ClassModel
  is_binary : Bool
  dataset : String
deriving Repr, DecidableEq

namespace SingleModelSingleDatasetMLClassReport

/-- The initializer: records the model, detects whether the train scorer is a
`ClassificationBinaryScorer`, and raises a `ValueError` unless the dataset
selector is `'train'` or `'test'`. -/
def init (model : ClassModel) (dataset : String) :
    Except String SingleModelSingleDatasetMLClassReport :=
  let is_binary := model.train_scorer.binary
  if ¬ (dataset = "train" ∨ dataset = "test") then
    .error datasetErrMsg
  else
    .ok { model := model, is_binary := is_binary, dataset := dataset }

/-- `fit_statistics`: the configured dataset's scorer table. -/
def fit_statistics (r : SingleModelSingleDatasetMLClassReport) : DF :=
  if r.dataset = "train" then
    r.model.train_scorer.stats_df
  else
    r.model.test_scorer.stats_df

/-- `fit_statistics_by_class`: warns and returns `None` on a binary task,
otherwise the configured dataset's per-class table. -/
def fit_statistics_by_class (r : SingleModelSingleDatasetMLClassReport) : Res DF :=
  if r.is_binary then
    { value := none, warnings := [byClassWarnMsg] }
  else if r.dataset = "train" then
    { value := some r.model.train_scorer.stats_by_class_df, warnings := [] }
  else
    { value := some r.model.test_scorer.stats_by_class_df, warnings := [] }

/-- `cv_fit_statistics`: warns and returns `None` for uncross-validated
models, returns the cv scorer's averaged or per-fold table on the train
dataset, warns and returns `None` on the test dataset, and falls through to
a bare `None` for any other selector (Python's implicit return). -/
def cv_fit_statistics (r : SingleModelSingleDatasetMLClassReport)
    (averaged_across_folds : Bool) : Except String (Res DF) :=
  if !r.model.is_cross_validated then
    .ok { value := none, warnings := [cvWarnMsg] }
  else if r.dataset = "train" then
    match r.model.cv_scorer with
    | none => .error attributeErrMsg
    | some cv =>
      if averaged_across_folds then
        .ok { value := some cv.stats_df, warnings := [] }
      else
        .ok { value := some cv.cv_stats_df, warnings := [] }
  else if r.dataset = "test" then
    .ok { value := none, warnings := [cvTestWarnMsg] }
  else
    .ok { value := none, warnings := [] }

/-- `plot_roc_curve`: warns and returns `None` unless the task is binary; on
the train dataset prefers the overall (nested-cv) scorer's stored data when
present, else the train scorer's; on any other dataset uses the test
scorer's. -/
def plot_roc_curve (r : SingleModelSingleDatasetMLClassReport) : Res Figure :=
  if !r.is_binary then
    { value := none, warnings := [rocWarnMsg] }
  else if r.dataset = "train" then
    match r.model.train_overall_scorer with
    | some ov =>
      { value := some (plot_roc_curve_fn ov.y_pred_score ov.y_true), warnings := [] }
    | none =>
      { value := some (plot_roc_curve_fn r.model.train_scorer.y_pred_score
          r.model.train_scorer.y_true), warnings := [] }
  else
    { value := some (plot_roc_curve_fn r.model.test_scorer.y_pred_score
        r.model.test_scorer.y_true), warnings := [] }

end SingleModelSingleDatasetMLClassReport

/-- `SingleModelMLClassReport`: routing wrapper around one model. -/
structure SingleModelMLClassReport where
  model : ClassModel
deriving Repr, DecidableEq

namespace SingleModelMLClassReport

/-- `train_report`: a fresh dataset-scoped report bound to `'train'`. -/
def train_report (r : SingleModelMLClassReport) :
    Except String SingleModelSingleDatasetMLClassReport :=
  SingleModelSingleDatasetMLClassReport.init r.model "train"

/-- `test_report`: a fresh dataset-scoped report bound to `'test'`. -/
def test_report (r : SingleModelMLClassReport) :
    Except String SingleModelSingleDatasetMLClassReport :=
  SingleModelSingleDatasetMLClassReport.init r.model "test"

end SingleModelMLClassReport

/-- `MLClassificationReport`: the multi-model report. Data emission and the
sequential fit loop are external side effects that do not alter the fields
read here; models are held already fitted. The two lookup tables are Python
dict comprehensions keyed by model name. -/
structure MLClassificationReport where
  models : List ClassModel
  id_to_model : List (String × ClassModel)
  id_to_report : List (String × SingleModelMLClassReport)
deriving Repr, DecidableEq

namespace MLClassificationReport

/-- The initializer's report-relevant effect: store the model list and build
the name-keyed model and report dicts. No duplicate-name guard exists. -/
def init (models : List ClassModel) : MLClassificationReport :=
  { models := models
    id_to_model := pyDict ClassModel.name id models
    id_to_report := pyDict ClassModel.name SingleModelMLClassReport.mk models }

/-- `model_report(model_id)`: dict lookup; `none` models the `KeyError`. -/
def model_report (r : MLClassificationReport) (model_id : String) :
    Option SingleModelMLClassReport :=
  dictGet r.id_to_report model_id

/-- `model(model_id)`: dict lookup; `none` models the `KeyError`. -/
def model (r : MLClassificationReport) (model_id : String) : Option ClassModel :=
  dictGet r.id_to_model model_id

/-- `__getitem__`: same lookup as `model_report`. -/
def getitem (r : MLClassificationReport) (model_id : String) :
    Option SingleModelMLClassReport :=
  dictGet r.id_to_report model_id

/-- `fit_statistics(dataset)`: concatenate each report-dict value's train
table when the argument is `'train'`, else each value's test table. -/
def fit_statistics (r : MLClassificationReport) (dataset : String) : Except String DF :=
  if dataset = "train" then do
    let dfs ← exceptMapList
      (fun rep => do
        let tr ← rep.train_report
        pure tr.fit_statistics)
      (dictValues r.id_to_report)
    pd_concat_cols (dfs.map some)
  else do
    let dfs ← exceptMapList
      (fun rep => do
        let te ← rep.test_report
        pure te.fit_statistics)
      (dictValues r.id_to_report)
    pd_concat_cols (dfs.map some)

/-- `cv_fit_statistics(averaged_across_folds)`: reads `self._models[0]`
(an `IndexError` on an empty list), gates on that first model's
cross-validation flag alone, then concatenates each report-dict value's
train-dataset `cv_fit_statistics` result. -/
def cv_fit_statistics (r : MLClassificationReport) (averaged_across_folds : Bool) :
    Except String (Res DF) :=
  match r.models with
  | [] => .error indexErrMsg
  | m0 :: _ =>
    if !m0.is_cross_validated then
      .ok { value := none, warnings := [cvWarnMsg] }
    else do
      let results ← exceptMapList
        (fun rep => do
          let tr ← rep.train_report
          tr.cv_fit_statistics averaged_across_folds)
        (dictValues r.id_to_report)
      let df ← pd_concat_cols (results.map Res.value)
      pure { value := some df, warnings := (results.map Res.warnings).flatten }

end MLClassificationReport

end ClassReports

section RegReports

/-- `SingleModelSingleDatasetMLRegReport`: one regression model, one dataset
partition. -/
structure SingleModelSingleDatasetMLRegReport where
  model : RegModel
  dataset : String
deriving Repr, DecidableEq

namespace SingleModelSingleDatasetMLRegReport

/-- The initializer: records the model and raises a `ValueError` unless the
dataset selector is `'train'` or `'test'`. -/
def init (model : RegModel) (dataset : String) :
    Except String SingleModelSingleDatasetMLRegReport :=
  if ¬ (dataset = "train" ∨ dataset = "test") then
    .error datasetErrMsg
  else
    .ok { model := model, dataset := dataset }

/-- `fit_statistics`: the configured dataset's scorer table. -/
def fit_statistics (r : SingleModelSingleDatasetMLRegReport) : DF :=
  if r.dataset = "train" then
    r.model.train_scorer.stats_df
  else
    r.model.test_scorer.stats_df

/-- `cv_fit_statistics`: warns and returns `None` for uncross-validated
models; on the train dataset returns the cv scorer's averaged or per-fold
table; on any other dataset warns and returns `None`. -/
def cv_fit_statistics (r : SingleModelSingleDatasetMLRegReport)
    (averaged_across_folds : Bool) : Except String (Res DF) :=
  if !r.model.is_cross_validated then
    .ok { value := none, warnings := [cvWarnMsg] }
  else if r.dataset = "train" then
    match r.model.cv_scorer with
    | none => .error attributeErrMsg
    | some cv =>
      if averaged_across_folds then
        .ok { value := some cv.stats_df, warnings := [] }
      else
        .ok { value := some cv.cv_stats_df, warnings := [] }
  else
    .ok { value := none, warnings := [cvTestWarnMsg] }

end SingleModelSingleDatasetMLRegReport

/-- `SingleModelMLRegReport`: routing wrapper around one model. -/
structure SingleModelMLRegReport where
  model : RegModel
deriving Repr, DecidableEq

namespace SingleModelMLRegReport

/-- `train_report`: a fresh dataset-scoped report bound to `'train'`. -/
def train_report (r : SingleModelMLRegReport) :
    Except String SingleModelSingleDatasetMLRegReport :=
  SingleModelSingleDatasetMLRegReport.init r.model "train"

/-- `test_report`: a fresh dataset-scoped report bound to `'test'`. -/
def test_report (r : SingleModelMLRegReport) :
    Except String SingleModelSingleDatasetMLRegReport :=
  SingleModelSingleDatasetMLRegReport.init r.model "test"

end SingleModelMLRegReport

/-- `MLRegressionReport`: the multi-model regression report; same structure
as the classification variant. -/
structure MLRegressionReport where
  models : List RegModel
  id_to_model : List (String × RegModel)
  id_to_report : List (String × SingleModelMLRegReport)
deriving Repr, DecidableEq

namespace MLRegressionReport

/-- The initializer's report-relevant effect: store the model list and build
the name-keyed model and report dicts. No duplicate-name guard exists. -/
def init (models : List RegModel) : MLRegressionReport :=
  { models := models
    id_to_model := pyDict RegModel.name id models
    id_to_report := pyDict RegModel.name SingleModelMLRegReport.mk models }

/-- `model_report(model_id)`: dict lookup; `none` models the `KeyError`. -/
def model_report (r : MLRegressionReport) (model_id : String) :
    Option SingleModelMLRegReport :=
  dictGet r.id_to_report model_id

/-- `model(model_id)`: dict lookup; `none` models the `KeyError`. -/
def model (r : MLRegressionReport) (model_id : String) : Option RegModel :=
  dictGet r.id_to_model model_id

/-- `__getitem__`: same lookup as `model_report`. -/
def getitem (r : MLRegressionReport) (model_id : String) :
    Option SingleModelMLRegReport :=
  dictGet r.id_to_report model_id

/-- `fit_statistics(dataset)`: concatenate each report-dict value's train
table when the argument is `'train'`, else each value's test table. -/
def fit_statistics (r : MLRegressionReport) (dataset : String) : Except String DF :=
  if dataset = "train" then do
    let dfs ← exceptMapList
      (fun rep => do
        let tr ← rep.train_report
        pure tr.fit_statistics)
      (dictValues r.id_to_report)
    pd_concat_cols (dfs.map some)
  else do
    let dfs ← exceptMapList
      (fun rep => do
        let te ← rep.test_report
        pure te.fit_statistics)
      (dictValues r.id_to_report)
    pd_concat_cols (dfs.map some)

/-- `cv_fit_statistics(averaged_across_folds)`: reads `self._models[0]`
(an `IndexError` on an empty list), gates on that first model's
cross-validation flag alone, then concatenates each report-dict value's
train-dataset `cv_fit_statistics` result. -/
def cv_fit_statistics (r : MLRegressionReport) (averaged_across_folds : Bool) :
    Except String (Res DF) :=
  match r.models with
  | [] => .error indexErrMsg
  | m0 :: _ =>
    if !m0.is_cross_validated then
      .ok { value := none, warnings := [cvWarnMsg] }
    else do
      let results ← exceptMapList
        (fun rep => do
          let tr ← rep.train_report
          tr.cv_fit_statistics averaged_across_folds)
        (dictValues r.id_to_report)
      let df ← pd_concat_cols (results.map Res.value)
      pure { value := some df, warnings := (results.map Res.warnings).flatten }

end MLRegressionReport

end RegReports

section DictLemmas

theorem dictGet_dictUpsert {α : Type} (d : List (String × α)) (k k' : String) (v : α) :
    dictGet (dictUpsert d k v) k' = if k' = k then some v else dictGet d k' := by
  unfold dictUpsert
  by_cases hany : d.any (fun p => p.1 == k) = true
  · simp only [hany, if_true]
    rw [dictGet, List.find?_map]
    have hpred : ((fun p => p.1 == k') ∘ fun p : String × α => if p.1 = k then (p.1, v) else p)
        = fun p : String × α => p.1 == k' := by
      funext p
      by_cases h : p.1 = k <;> simp [h]
    rw [hpred]
    by_cases hk : k' = k
    · subst hk
      have hsome : (d.find? (fun p => p.1 == k')).isSome := by
        rw [List.find?_isSome]
        rcases List.any_eq_true.mp hany with ⟨p, hp, hpk⟩
        exact ⟨p, hp, hpk⟩
      rcases Option.isSome_iff_exists.mp hsome with ⟨p, hp⟩
      have hkey : p.1 = k' := by
        have := List.find?_some hp
        simpa using this
      simp [hp, hkey, dictGet]
    · cases hfind : d.find? (fun p => p.1 == k') with
      | none => simp [hfind, hk, dictGet]
      | some p =>
        have hkey : p.1 = k' := by
          have := List.find?_some hfind
          simpa using this
        have hne : ¬ p.1 = k := by
          rw [hkey]
          exact hk
        simp [hfind, hk, hne, dictGet]
  · simp only [hany, if_false]
    have hnone : d.find? (fun p => p.1 == k) = none := by
      rw [List.find?_eq_none]
      intro x hx hpx
      exact absurd (List.any_eq_true.mpr ⟨x, hx, hpx⟩) hany
    by_cases hk : k' = k
    · subst hk
      simp [dictGet, List.find?_append, hnone]
    · have hkk : (k == k') = false := by
        simp only [beq_eq_false_iff_ne, ne_eq]
        exact fun h => hk h.symm
      have hlast : List.find? (fun p : String × α => p.1 == k') [(k, v)] = none := by
        simp [List.find?, hkk]
      simp [dictGet, List.find?_append, hlast, hk]

theorem pyDict_concat {μ α : Type} (key : μ → String) (f : μ → α) (ms : List μ) (m : μ) :
    pyDict key f (ms ++ [m]) = dictUpsert (pyDict key f ms) (key m) (f m) := by
  simp [pyDict, List.foldl_append]

theorem dictGet_pyDict {μ α : Type} (key : μ → String) (f : μ → α) (ms : List μ) (k : String) :
    dictGet (pyDict key f ms) k = ((ms.filter (fun m => key m == k)).getLast?).map f := by
  induction ms using List.reverseRecOn with
  | nil => simp [pyDict, dictGet]
  | append_singleton ms m ih =>
    rw [pyDict_concat, dictGet_dictUpsert]
    by_cases hk : k = key m
    · subst hk
      have : (ms ++ [m]).filter (fun m' => key m' == key m)
          = ms.filter (fun m' => key m' == key m) ++ [m] := by
        simp [List.filter_append]
      simp [this, List.getLast?_concat]
    · have hne : (key m == k) = false := by
        simp only [beq_eq_false_iff_ne, ne_eq]
        exact fun h => hk h.symm
      have : (ms ++ [m]).filter (fun m' => key m' == k)
          = ms.filter (fun m' => key m' == k) := by
        simp [List.filter_append, hne]
      simp [this, hk, ih]

theorem foldl_dictUpsert_fresh {μ α : Type} (key : μ → String) (f : μ → α) :
    ∀ (ms : List μ) (acc : List (String × α)),
      (∀ m ∈ ms, ∀ p ∈ acc, p.1 ≠ key m) → (ms.map key).Nodup →
      ms.foldl (fun d m => dictUpsert d (key m) (f m)) acc
        = acc ++ ms.map (fun m => (key m, f m))
  | [], acc, _, _ => by simp
  | m :: ms, acc, hfresh, hnodup => by
    have hany : acc.any (fun p => p.1 == key m) = false := by
      rw [List.any_eq_false]
      intro p hp
      simp only [beq_iff_eq]
      exact hfresh m (by simp) p hp
    have hstep : dictUpsert acc (key m) (f m) = acc ++ [(key m, f m)] := by
      simp [dictUpsert, hany]
    have hnodup' : (ms.map key).Nodup := (List.nodup_cons.mp (by simpa using hnodup)).2
    have hnotmem : key m ∉ ms.map key := (List.nodup_cons.mp (by simpa using hnodup)).1
    have hfresh' : ∀ m' ∈ ms, ∀ p ∈ acc ++ [(key m, f m)], p.1 ≠ key m' := by
      intro m' hm' p hp
      rcases List.mem_append.mp hp with h | h
      · exact hfresh m' (by simp [hm']) p h
      · simp only [List.mem_singleton] at h
        subst h
        intro hcon
        apply hnotmem
        have hkey : key m = key m' := hcon
        rw [hkey]
        exact List.mem_map_of_mem key hm'
    calc (m :: ms).foldl (fun d m => dictUpsert d (key m) (f m)) acc
        = ms.foldl (fun d m => dictUpsert d (key m) (f m)) (acc ++ [(key m, f m)]) := by
          simp [List.foldl_cons, hstep]
      _ = (acc ++ [(key m, f m)]) ++ ms.map (fun m => (key m, f m)) :=
          foldl_dictUpsert_fresh key f ms _ hfresh' hnodup'
      _ = acc ++ (m :: ms).map (fun m => (key m, f m)) := by simp

theorem pyDict_eq_map {μ α : Type} (key : μ → String) (f : μ → α) (ms : List μ)
    (h : (ms.map key).Nodup) :
    pyDict key f ms = ms.map (fun m => (key m, f m)) := by
  have := foldl_dictUpsert_fresh key f ms [] (by simp) h
  simpa [pyDict] using this

theorem dictValues_pyDict {μ α : Type} (key : μ → String) (f : μ → α) (ms : List μ)
    (h : (ms.map key).Nodup) :
    dictValues (pyDict key f ms) = ms.map f := by
  rw [pyDict_eq_map key f ms h]
  simp [dictValues]

theorem dictUpsert_length_ge {α : Type} (d : List (String × α)) (k : String) (v : α) :
    d.length ≤ (dictUpsert d k v).length := by
  unfold dictUpsert
  by_cases h : d.any (fun p => p.1 == k) = true <;> simp [h]

theorem pyDict_length_pos {μ α : Type} (key : μ → String) (f : μ → α) (m : μ) (ms : List μ) :
    0 < (pyDict key f (m :: ms)).length := by
  have haux : ∀ (l : List μ) (acc : List (String × α)),
      acc.length ≤ (l.foldl (fun d m => dictUpsert d (key m) (f m)) acc).length := by
    intro l
    induction l with
    | nil => intro acc; simp
    | cons x xs ih =>
      intro acc
      calc acc.length ≤ (dictUpsert acc (key x) (f x)).length := dictUpsert_length_ge ..
        _ ≤ _ := by simpa using ih (dictUpsert acc (key x) (f x))
  have h1 : (dictUpsert ([] : List (String × α)) (key m) (f m)).length = 1 := by
    simp [dictUpsert]
  have := haux ms (dictUpsert [] (key m) (f m))
  rw [h1] at this
  simpa [pyDict] using Nat.lt_of_lt_of_le Nat.zero_lt_one this

end DictLemmas

section LoopLemmas

@[simp]
theorem except_bind_ok {ε α β : Type} (a : α) (f : α → Except ε β) :
    (Except.ok a >>= f : Except ε β) = f a := rfl

@[simp]
theorem except_bind_error {ε α β : Type} (e : ε) (f : α → Except ε β) :
    (Except.error e >>= f : Except ε β) = Except.error e := rfl

theorem exceptMapList_ok {α β : Type} (f : α → Except String β) (g : α → β) (l : List α)
    (h : ∀ x ∈ l, f x = .ok (g x)) : exceptMapList f l = .ok (l.map g) := by
  induction l with
  | nil => rfl
  | cons a as ih =>
    have ha : f a = .ok (g a) := h a (by simp)
    have has : exceptMapList f as = .ok (as.map g) := ih (fun x hx => h x (by simp [hx]))
    simp [exceptMapList, ha, has]

theorem pd_concat_cols_map_some (dfs : List DF) (h : dfs ≠ []) :
    pd_concat_cols (dfs.map some) = .ok dfs.flatten := by
  have hfm : (dfs.map some).filterMap id = dfs := by simp
  have hne : dfs.isEmpty = false := by
    cases dfs with
    | nil => exact absurd rfl h
    | cons a as => rfl
  simp [pd_concat_cols, hfm, hne]

theorem flatten_filterMap_id (objs : List (Option DF)) :
    (objs.filterMap id).flatten = (objs.map (fun o => o.getD [])).flatten := by
  induction objs with
  | nil => rfl
  | cons o os ih =>
    cases o with
    | none => simpa using ih
    | some df => simpa using congrArg (df ++ ·) ih

theorem pd_concat_cols_head_some (o : DF) (objs : List (Option DF)) :
    pd_concat_cols (some o :: objs) = .ok ((some o :: objs).map (fun x => x.getD [])).flatten := by
  have hne : ((some o :: objs).filterMap id).isEmpty = false := by
    simp [List.filterMap_cons]
  rw [pd_concat_cols]
  simp only [hne, Bool.false_eq_true, if_false]
  exact congrArg Except.ok (flatten_filterMap_id _)

end LoopLemmas

section ReportLemmas

/-- The cross-validation table the single-model report hands back: the
averaged table when `averaged_across_folds` is set, else the per-fold
table. -/
def cvTable (cvs : Option CVScorer) (averaged_across_folds : Bool) : DF :=
  match cvs with
  | some cv => if averaged_across_folds then cv.stats_df else cv.cv_stats_df
  | none => []

theorem initClass_ok {m : ClassModel} {ds : String}
    {r : SingleModelSingleDatasetMLClassReport}
    (h : SingleModelSingleDatasetMLClassReport.init m ds = .ok r) :
    (ds = "train" ∨ ds = "test")
      ∧ r = { model := m, is_binary := m.train_scorer.binary, dataset := ds } := by
  rw [SingleModelSingleDatasetMLClassReport.init] at h
  by_cases hds : ds = "train" ∨ ds = "test"
  · refine ⟨hds, ?_⟩
    simp only [hds, not_true_eq_false, if_false] at h
    exact (Except.ok.injEq .. ▸ h).symm
  · simp [hds] at h

theorem initClass_err {m : ClassModel} {ds : String}
    (h : ¬ (ds = "train" ∨ ds = "test")) :
    SingleModelSingleDatasetMLClassReport.init m ds = .error datasetErrMsg := by
  simp [SingleModelSingleDatasetMLClassReport.init, h]

theorem initClass_valid (m : ClassModel) {ds : String} (h : ds = "train" ∨ ds = "test") :
    SingleModelSingleDatasetMLClassReport.init m ds
      = .ok { model := m, is_binary := m.train_scorer.binary, dataset := ds } := by
  simp [SingleModelSingleDatasetMLClassReport.init, h]

theorem initReg_ok {m : RegModel} {ds : String}
    {r : SingleModelSingleDatasetMLRegReport}
    (h : SingleModelSingleDatasetMLRegReport.init m ds = .ok r) :
    (ds = "train" ∨ ds = "test") ∧ r = { model := m, dataset := ds } := by
  rw [SingleModelSingleDatasetMLRegReport.init] at h
  by_cases hds : ds = "train" ∨ ds = "test"
  · refine ⟨hds, ?_⟩
    simp only [hds, not_true_eq_false, if_false] at h
    exact (Except.ok.injEq .. ▸ h).symm
  · simp [hds] at h

theorem initReg_err {m : RegModel} {ds : String}
    (h : ¬ (ds = "train" ∨ ds = "test")) :
    SingleModelSingleDatasetMLRegReport.init m ds = .error datasetErrMsg := by
  simp [SingleModelSingleDatasetMLRegReport.init, h]

theorem initReg_valid (m : RegModel) {ds : String} (h : ds = "train" ∨ ds = "test") :
    SingleModelSingleDatasetMLRegReport.init m ds = .ok { model := m, dataset := ds } := by
  simp [SingleModelSingleDatasetMLRegReport.init, h]

theorem train_report_reg (rep : SingleModelMLRegReport) :
    rep.train_report = .ok { model := rep.model, dataset := "train" } :=
  initReg_valid rep.model (Or.inl rfl)

theorem test_report_reg (rep : SingleModelMLRegReport) :
    rep.test_report = .ok { model := rep.model, dataset := "test" } :=
  initReg_valid rep.model (Or.inr rfl)

theorem train_report_class (rep : SingleModelMLClassReport) :
    rep.train_report
      = .ok { model := rep.model, is_binary := rep.model.train_scorer.binary,
              dataset := "train" } :=
  initClass_valid rep.model (Or.inl rfl)

theorem test_report_class (rep : SingleModelMLClassReport) :
    rep.test_report
      = .ok { model := rep.model, is_binary := rep.model.train_scorer.binary,
              dataset := "test" } :=
  initClass_valid rep.model (Or.inr rfl)

theorem fit_body_reg (rep : SingleModelMLRegReport) (ds : Bool) :
    (do
      let tr ← if ds then rep.train_report else rep.test_report
      pure tr.fit_statistics : Except String DF)
      = .ok (if ds then rep.model.train_scorer.stats_df else rep.model.test_scorer.stats_df) := by
  cases ds with
  | true => simp [train_report_reg, SingleModelSingleDatasetMLRegReport.fit_statistics]
  | false =>
    simp [test_report_reg, SingleModelSingleDatasetMLRegReport.fit_statistics]

theorem fit_body_class (rep : SingleModelMLClassReport) (ds : Bool) :
    (do
      let tr ← if ds then rep.train_report else rep.test_report
      pure tr.fit_statistics : Except String DF)
      = .ok (if ds then rep.model.train_scorer.stats_df else rep.model.test_scorer.stats_df) := by
  cases ds with
  | true => simp [train_report_class, SingleModelSingleDatasetMLClassReport.fit_statistics]
  | false =>
    simp [test_report_class, SingleModelSingleDatasetMLClassReport.fit_statistics]

theorem cv_body_reg (rep : SingleModelMLRegReport) (av : Bool)
    (hc : rep.model.is_cross_validated = true → rep.model.cv_scorer.isSome) :
    (do
      let tr ← rep.train_report
      tr.cv_fit_statistics av : Except String (Res DF))
      = .ok (if rep.model.is_cross_validated then
              { value := some (cvTable rep.model.cv_scorer av), warnings := [] }
            else { value := none, warnings := [cvWarnMsg] }) := by
  rw [train_report_reg]
  cases hcv : rep.model.is_cross_validated with
  | false =>
    simp [SingleModelSingleDatasetMLRegReport.cv_fit_statistics, hcv]
  | true =>
    rcases Option.isSome_iff_exists.mp (hc hcv) with ⟨cv, hcveq⟩
    cases av with
    | true =>
      simp [SingleModelSingleDatasetMLRegReport.cv_fit_statistics, hcv, hcveq, cvTable]
    | false =>
      simp [SingleModelSingleDatasetMLRegReport.cv_fit_statistics, hcv, hcveq, cvTable]

theorem cv_body_class (rep : SingleModelMLClassReport) (av : Bool)
    (hc : rep.model.is_cross_validated = true → rep.model.cv_scorer.isSome) :
    (do
      let tr ← rep.train_report
      tr.cv_fit_statistics av : Except String (Res DF))
      = .ok (if rep.model.is_cross_validated then
              { value := some (cvTable rep.model.cv_scorer av), warnings := [] }
            else { value := none, warnings := [cvWarnMsg] }) := by
  rw [train_report_class]
  cases hcv : rep.model.is_cross_validated with
  | false =>
    simp [SingleModelSingleDatasetMLClassReport.cv_fit_statistics, hcv]
  | true =>
    rcases Option.isSome_iff_exists.mp (hc hcv) with ⟨cv, hcveq⟩
    cases av with
    | true =>
      simp [SingleModelSingleDatasetMLClassReport.cv_fit_statistics, hcv, hcveq, cvTable]
    | false =>
      simp [SingleModelSingleDatasetMLClassReport.cv_fit_statistics, hcv, hcveq, cvTable]

end ReportLemmas

section MultiModelLemmas

theorem mlreg_values (models : List RegModel) (hnd : (models.map RegModel.name).Nodup) :
    dictValues (MLRegressionReport.init models).id_to_report
      = models.map SingleModelMLRegReport.mk := by
  show dictValues (pyDict RegModel.name SingleModelMLRegReport.mk models) = _
  exact dictValues_pyDict _ _ _ hnd

theorem mlclass_values (models : List ClassModel) (hnd : (models.map ClassModel.name).Nodup) :
    dictValues (MLClassificationReport.init models).id_to_report
      = models.map SingleModelMLClassReport.mk := by
  show dictValues (pyDict ClassModel.name SingleModelMLClassReport.mk models) = _
  exact dictValues_pyDict _ _ _ hnd

theorem mlreg_fit_statistics_char (models : List RegModel) (ds : String)
    (hnd : (models.map RegModel.name).Nodup) (hne : models ≠ []) :
    (MLRegressionReport.init models).fit_statistics ds
      = .ok (models.map (fun m =>
          if ds = "train" then m.train_scorer.stats_df else m.test_scorer.stats_df)).flatten := by
  have hv := mlreg_values models hnd
  by_cases hds : ds = "train"
  · subst hds
    rw [MLRegressionReport.fit_statistics, if_pos rfl, hv]
    rw [exceptMapList_ok _ (fun rep : SingleModelMLRegReport => rep.model.train_scorer.stats_df) _
      (fun rep _ => by
        simp [train_report_reg, SingleModelSingleDatasetMLRegReport.fit_statistics])]
    rw [except_bind_ok]
    rw [pd_concat_cols_map_some ((models.map SingleModelMLRegReport.mk).map
        (fun rep : SingleModelMLRegReport => rep.model.train_scorer.stats_df)) (by simp [hne])]
    rw [List.map_map]
    simp only [if_pos rfl]
    congr 1
  · rw [MLRegressionReport.fit_statistics, if_neg hds, hv]
    rw [exceptMapList_ok _ (fun rep : SingleModelMLRegReport => rep.model.test_scorer.stats_df) _
      (fun rep _ => by
        simp [test_report_reg, SingleModelSingleDatasetMLRegReport.fit_statistics])]
    rw [except_bind_ok]
    rw [pd_concat_cols_map_some ((models.map SingleModelMLRegReport.mk).map
        (fun rep : SingleModelMLRegReport => rep.model.test_scorer.stats_df)) (by simp [hne])]
    rw [List.map_map]
    simp only [if_neg hds]
    congr 1

theorem mlclass_fit_statistics_char (models : List ClassModel) (ds : String)
    (hnd : (models.map ClassModel.name).Nodup) (hne : models ≠ []) :
    (MLClassificationReport.init models).fit_statistics ds
      = .ok (models.map (fun m =>
          if ds = "train" then m.train_scorer.stats_df else m.test_scorer.stats_df)).flatten := by
  have hv := mlclass_values models hnd
  by_cases hds : ds = "train"
  · subst hds
    rw [MLClassificationReport.fit_statistics, if_pos rfl, hv]
    rw [exceptMapList_ok _ (fun rep : SingleModelMLClassReport => rep.model.train_scorer.stats_df) _
      (fun rep _ => by
        simp [train_report_class, SingleModelSingleDatasetMLClassReport.fit_statistics])]
    rw [except_bind_ok]
    rw [pd_concat_cols_map_some ((models.map SingleModelMLClassReport.mk).map
        (fun rep : SingleModelMLClassReport => rep.model.train_scorer.stats_df)) (by simp [hne])]
    rw [List.map_map]
    simp only [if_pos rfl]
    congr 1
  · rw [MLClassificationReport.fit_statistics, if_neg hds, hv]
    rw [exceptMapList_ok _ (fun rep : SingleModelMLClassReport => rep.model.test_scorer.stats_df) _
      (fun rep _ => by
        simp [test_report_class, SingleModelSingleDatasetMLClassReport.fit_statistics])]
    rw [except_bind_ok]
    rw [pd_concat_cols_map_some ((models.map SingleModelMLClassReport.mk).map
        (fun rep : SingleModelMLClassReport => rep.model.test_scorer.stats_df)) (by simp [hne])]
    rw [List.map_map]
    simp only [if_neg hds]
    congr 1

theorem mlreg_cv_gate (m0 : RegModel) (rest : List RegModel) (av : Bool)
    (h0 : m0.is_cross_validated = false) :
    (MLRegressionReport.init (m0 :: rest)).cv_fit_statistics av
      = .ok { value := none, warnings := [cvWarnMsg] } := by
  simp [MLRegressionReport.cv_fit_statistics, MLRegressionReport.init, h0]

theorem mlclass_cv_gate (m0 : ClassModel) (rest : List ClassModel) (av : Bool)
    (h0 : m0.is_cross_validated = false) :
    (MLClassificationReport.init (m0 :: rest)).cv_fit_statistics av
      = .ok { value := none, warnings := [cvWarnMsg] } := by
  simp [MLClassificationReport.cv_fit_statistics, MLClassificationReport.init, h0]

theorem mlreg_cv_loop (av : Bool) (ms : List RegModel)
    (hc : ∀ m ∈ ms, m.is_cross_validated = true → m.cv_scorer.isSome) :
    exceptMapList (fun rep => do
        let tr ← rep.train_report
        tr.cv_fit_statistics av) (ms.map SingleModelMLRegReport.mk)
      = .ok (ms.map (fun m =>
          if m.is_cross_validated then
            ({ value := some (cvTable m.cv_scorer av), warnings := [] } : Res DF)
          else { value := none, warnings := [cvWarnMsg] })) := by
  rw [exceptMapList_ok _
    (fun rep : SingleModelMLRegReport =>
      if rep.model.is_cross_validated then
        ({ value := some (cvTable rep.model.cv_scorer av), warnings := [] } : Res DF)
      else { value := none, warnings := [cvWarnMsg] }) _
    (fun rep hrep => by
      refine cv_body_reg rep av ?_
      rcases List.mem_map.mp hrep with ⟨m, hm, hmk⟩
      subst hmk
      exact hc m hm)]
  rw [List.map_map]
  rfl

theorem mlclass_cv_loop (av : Bool) (ms : List ClassModel)
    (hc : ∀ m ∈ ms, m.is_cross_validated = true → m.cv_scorer.isSome) :
    exceptMapList (fun rep => do
        let tr ← rep.train_report
        tr.cv_fit_statistics av) (ms.map SingleModelMLClassReport.mk)
      = .ok (ms.map (fun m =>
          if m.is_cross_validated then
            ({ value := some (cvTable m.cv_scorer av), warnings := [] } : Res DF)
          else { value := none, warnings := [cvWarnMsg] })) := by
  rw [exceptMapList_ok _
    (fun rep : SingleModelMLClassReport =>
      if rep.model.is_cross_validated then
        ({ value := some (cvTable rep.model.cv_scorer av), warnings := [] } : Res DF)
      else { value := none, warnings := [cvWarnMsg] }) _
    (fun rep hrep => by
      refine cv_body_class rep av ?_
      rcases List.mem_map.mp hrep with ⟨m, hm, hmk⟩
      subst hmk
      exact hc m hm)]
  rw [List.map_map]
  rfl

theorem mlreg_cv_char (m0 : RegModel) (rest : List RegModel) (av : Bool)
    (h0 : m0.is_cross_validated = true)
    (hnd : ((m0 :: rest).map RegModel.name).Nodup)
    (hc : ∀ m ∈ m0 :: rest, m.is_cross_validated = true → m.cv_scorer.isSome) :
    (MLRegressionReport.init (m0 :: rest)).cv_fit_statistics av
      = .ok { value := some ((m0 :: rest).map (fun m =>
                  if m.is_cross_validated then cvTable m.cv_scorer av else [])).flatten
              warnings := ((m0 :: rest).map (fun m =>
                  if m.is_cross_validated then ([] : List String) else [cvWarnMsg])).flatten } := by
  have hv := mlreg_values (m0 :: rest) hnd
  have hloop := mlreg_cv_loop av (m0 :: rest) hc
  rw [MLRegressionReport.cv_fit_statistics]
  show (if !m0.is_cross_validated then _ else _) = _
  rw [h0]
  simp only [Bool.not_true, Bool.false_eq_true, if_false]
  rw [hv, hloop, except_bind_ok]
  have hvals : ((m0 :: rest).map (fun m =>
        if m.is_cross_validated then
          ({ value := some (cvTable m.cv_scorer av), warnings := [] } : Res DF)
        else { value := none, warnings := [cvWarnMsg] })).map Res.value
      = (m0 :: rest).map (fun m =>
          if m.is_cross_validated then some (cvTable m.cv_scorer av) else none) := by
    rw [List.map_map]
    apply List.map_congr_left
    intro m _
    by_cases hm : m.is_cross_validated <;> simp [hm]
  have hwarns : ((m0 :: rest).map (fun m =>
        if m.is_cross_validated then
          ({ value := some (cvTable m.cv_scorer av), warnings := [] } : Res DF)
        else { value := none, warnings := [cvWarnMsg] })).map Res.warnings
      = (m0 :: rest).map (fun m =>
          if m.is_cross_validated then ([] : List String) else [cvWarnMsg]) := by
    rw [List.map_map]
    apply List.map_congr_left
    intro m _
    by_cases hm : m.is_cross_validated <;> simp [hm]
  rw [hvals, hwarns]
  have hhead : (m0 :: rest).map (fun m =>
        if m.is_cross_validated then some (cvTable m.cv_scorer av) else none)
      = some (cvTable m0.cv_scorer av) :: rest.map (fun m =>
          if m.is_cross_validated then some (cvTable m.cv_scorer av) else none) := by
    rw [List.map_cons, h0]
    simp
  rw [hhead, pd_concat_cols_head_some, except_bind_ok]
  have hgd : ((some (cvTable m0.cv_scorer av) :: rest.map (fun m =>
        if m.is_cross_validated then some (cvTable m.cv_scorer av) else none)).map
          (fun x => x.getD [])).flatten
      = ((m0 :: rest).map (fun m =>
          if m.is_cross_validated then cvTable m.cv_scorer av else [])).flatten := by
    congr 1
    rw [List.map_cons, List.map_cons, List.map_map]
    congr 1
    · simp [h0]
    · apply List.map_congr_left
      intro m _
      by_cases hm : m.is_cross_validated <;> simp [hm]
  rw [hgd]
  rfl

theorem mlclass_cv_char (m0 : ClassModel) (rest : List ClassModel) (av : Bool)
    (h0 : m0.is_cross_validated = true)
    (hnd : ((m0 :: rest).map ClassModel.name).Nodup)
    (hc : ∀ m ∈ m0 :: rest, m.is_cross_validated = true → m.cv_scorer.isSome) :
    (MLClassificationReport.init (m0 :: rest)).cv_fit_statistics av
      = .ok { value := some ((m0 :: rest).map (fun m =>
                  if m.is_cross_validated then cvTable m.cv_scorer av else [])).flatten
              warnings := ((m0 :: rest).map (fun m =>
                  if m.is_cross_validated then ([] : List String) else [cvWarnMsg])).flatten } := by
  have hv := mlclass_values (m0 :: rest) hnd
  have hloop := mlclass_cv_loop av (m0 :: rest) hc
  rw [MLClassificationReport.cv_fit_statistics]
  show (if !m0.is_cross_validated then _ else _) = _
  rw [h0]
  simp only [Bool.not_true, Bool.false_eq_true, if_false]
  rw [hv, hloop, except_bind_ok]
  have hvals : ((m0 :: rest).map (fun m =>
        if m.is_cross_validated then
          ({ value := some (cvTable m.cv_scorer av), warnings := [] } : Res DF)
        else { value := none, warnings := [cvWarnMsg] })).map Res.value
      = (m0 :: rest).map (fun m =>
          if m.is_cross_validated then some (cvTable m.cv_scorer av) else none) := by
    rw [List.map_map]
    apply List.map_congr_left
    intro m _
    by_cases hm : m.is_cross_validated <;> simp [hm]
  have hwarns : ((m0 :: rest).map (fun m =>
        if m.is_cross_validated then
          ({ value := some (cvTable m.cv_scorer av), warnings := [] } : Res DF)
        else { value := none, warnings := [cvWarnMsg] })).map Res.warnings
      = (m0 :: rest).map (fun m =>
          if m.is_cross_validated then ([] : List String) else [cvWarnMsg]) := by
    rw [List.map_map]
    apply List.map_congr_left
    intro m _
    by_cases hm : m.is_cross_validated <;> simp [hm]
  rw [hvals, hwarns]
  have hhead : (m0 :: rest).map (fun m =>
        if m.is_cross_validated then some (cvTable m.cv_scorer av) else none)
      = some (cvTable m0.cv_scorer av) :: rest.map (fun m =>
          if m.is_cross_validated then some (cvTable m.cv_scorer av) else none) := by
    rw [List.map_cons, h0]
    simp
  rw [hhead, pd_concat_cols_head_some, except_bind_ok]
  have hgd : ((some (cvTable m0.cv_scorer av) :: rest.map (fun m =>
        if m.is_cross_validated then some (cvTable m.cv_scorer av) else none)).map
          (fun x => x.getD [])).flatten
      = ((m0 :: rest).map (fun m =>
          if m.is_cross_validated then cvTable m.cv_scorer av else [])).flatten := by
    congr 1
    rw [List.map_cons, List.map_cons, List.map_map]
    congr 1
    · simp [h0]
    · apply List.map_congr_left
      intro m _
      by_cases hm : m.is_cross_validated <;> simp [hm]
  rw [hgd]
  rfl

end MultiModelLemmas

section Examples

/-- A concrete cross-validation scorer used to instantiate the theorems. -/
def exCV : CVScorer :=
  { stats_df := ["A_cv"], cv_stats_df := ["A_cv_f"]
    stats_by_class_df := ["A_cv_cls"], cv_stats_by_class_df := ["A_cv_cls_f"] }

/-- A concrete cross-validated regression model named `A`. -/
def rmA : RegModel :=
  { name := "A", train_scorer := { stats_df := ["A_tr"] }
    test_scorer := { stats_df := ["A_te"] }
    cv_scorer := some exCV, is_cross_validated := true }

/-- A concrete regression model named `B` that was not cross-validated. -/
def rmB : RegModel :=
  { name := "B", train_scorer := { stats_df := ["B_tr"] }
    test_scorer := { stats_df := ["B_te"] }
    cv_scorer := none, is_cross_validated := false }

/-- A second concrete regression model that shares the name `A` with `rmA`. -/
def rmDup : RegModel :=
  { name := "A", train_scorer := { stats_df := ["D_tr"] }
    test_scorer := { stats_df := ["D_te"] }
    cv_scorer := none, is_cross_validated := false }

/-- A concrete binary-classification model (cross-validated, with an overall
scorer from nested cross validation). -/
def cmBin : ClassModel :=
  { name := "cb"
    train_scorer := { binary := true, stats_df := ["cb_tr"], stats_by_class_df := ["cb_tr_cls"]
                      y_pred_score := [9/10], y_true := [1] }
    test_scorer := { binary := true, stats_df := ["cb_te"], stats_by_class_df := ["cb_te_cls"]
                     y_pred_score := [2/10], y_true := [0] }
    train_overall_scorer := some { binary := true, stats_df := ["cb_ov"]
                                   stats_by_class_df := ["cb_ov_cls"]
                                   y_pred_score := [7/10], y_true := [1] }
    cv_scorer := some { stats_df := ["cb_cv"], cv_stats_df := ["cb_cv_f"]
                        stats_by_class_df := ["cb_cv_cls"], cv_stats_by_class_df := ["cb_cv_cls_f"] }
    is_cross_validated := true }

/-- A concrete multiclass-classification model, not cross-validated. -/
def cmMulti : ClassModel :=
  { name := "cm"
    train_scorer := { binary := false, stats_df := ["cm_tr"], stats_by_class_df := ["cm_tr_cls"]
                      y_pred_score := [1/2], y_true := [2] }
    test_scorer := { binary := false, stats_df := ["cm_te"], stats_by_class_df := ["cm_te_cls"]
                     y_pred_score := [1/3], y_true := [0] }
    train_overall_scorer := none
    cv_scorer := none
    is_cross_validated := false }

/-- A second concrete classification model sharing the name `cb` with
`cmBin`. -/
def cmBinDup : ClassModel :=
  { name := "cb"
    train_scorer := { binary := true, stats_df := ["cd_tr"], stats_by_class_df := ["cd_tr_cls"]
                      y_pred_score := [1/10], y_true := [0] }
    test_scorer := { binary := true, stats_df := ["cd_te"], stats_by_class_df := ["cd_te_cls"]
                     y_pred_score := [3/10], y_true := [1] }
    train_overall_scorer := none
    cv_scorer := none
    is_cross_validated := false }

end Examples

section Claims

/-- C1: for every feature selector (KBestSelectorR and LassoSelectorR) and
every data emitter, the triple (all_features, selected_features,
support_mask) returned by select satisfies: the support mask has the same
length as all_features, and selected_features equals exactly the subsequence
of all_features at positions where the support mask is true, in order. The
hypotheses reflect the external library's shape contract: one univariate
score and one Lasso coefficient per predictor column. -/
theorem claim_c1_select_invariant (kb : KBestSelectorR) (ls : LassoSelectorR) (em : TrainData)
    (hscores : em.scores.length = em.columns.length)
    (hcoefs : em.lassoCoefs.length = em.columns.length) :
    ((kb.select em).support.length = (kb.select em).all_features.length
      ∧ (kb.select em).selected_features
          = (((kb.select em).all_features.zip (kb.select em).support).filter
              (fun p => p.2)).map Prod.fst)
    ∧ ((ls.select em).support.length = (ls.select em).all_features.length
      ∧ (ls.select em).selected_features
          = (((ls.select em).all_features.zip (ls.select em).support).filter
              (fun p => p.2)).map Prod.fst) := by
  refine ⟨⟨?_, rfl⟩, ⟨?_, rfl⟩⟩
  · show (kbestSupport em.scores kb.k).length = em.columns.length
    simp [kbestSupport, hscores]
  · show (selectFromModelSupport em.lassoCoefs ls.max_n_features).length = em.columns.length
    simp [selectFromModelSupport, hcoefs]

/-- C1 witness: the invariant at a concrete emitter with three predictors,
a KBest selector with k = 2, and a Lasso selector with max_n_features = 1. -/
theorem claim_c1_select_invariant_witness :
    ((⟨["a", "b", "c"], [1, 3, 2], [0, 1/2, 0]⟩ : TrainData).scores.length
        = (⟨["a", "b", "c"], [1, 3, 2], [0, 1/2, 0]⟩ : TrainData).columns.length)
    ∧ ((⟨["a", "b", "c"], [1, 3, 2], [0, 1/2, 0]⟩ : TrainData).lassoCoefs.length
        = (⟨["a", "b", "c"], [1, 3, 2], [0, 1/2, 0]⟩ : TrainData).columns.length)
    ∧ (((KBestSelectorR.select ⟨"f_regression", 2⟩ ⟨["a", "b", "c"], [1, 3, 2], [0, 1/2, 0]⟩).support.length
          = (KBestSelectorR.select ⟨"f_regression", 2⟩ ⟨["a", "b", "c"], [1, 3, 2], [0, 1/2, 0]⟩).all_features.length
        ∧ (KBestSelectorR.select ⟨"f_regression", 2⟩ ⟨["a", "b", "c"], [1, 3, 2], [0, 1/2, 0]⟩).selected_features
            = (((KBestSelectorR.select ⟨"f_regression", 2⟩ ⟨["a", "b", "c"], [1, 3, 2], [0, 1/2, 0]⟩).all_features.zip
                (KBestSelectorR.select ⟨"f_regression", 2⟩ ⟨["a", "b", "c"], [1, 3, 2], [0, 1/2, 0]⟩).support).filter
                (fun p => p.2)).map Prod.fst)
      ∧ ((LassoSelectorR.select ⟨1, 1/10⟩ ⟨["a", "b", "c"], [1, 3, 2], [0, 1/2, 0]⟩).support.length
          = (LassoSelectorR.select ⟨1, 1/10⟩ ⟨["a", "b", "c"], [1, 3, 2], [0, 1/2, 0]⟩).all_features.length
        ∧ (LassoSelectorR.select ⟨1, 1/10⟩ ⟨["a", "b", "c"], [1, 3, 2], [0, 1/2, 0]⟩).selected_features
            = (((LassoSelectorR.select ⟨1, 1/10⟩ ⟨["a", "b", "c"], [1, 3, 2], [0, 1/2, 0]⟩).all_features.zip
                (LassoSelectorR.select ⟨1, 1/10⟩ ⟨["a", "b", "c"], [1, 3, 2], [0, 1/2, 0]⟩).support).filter
                (fun p => p.2)).map Prod.fst)) :=
  ⟨rfl, rfl, claim_c1_select_invariant ⟨"f_regression", 2⟩ ⟨1, 1/10⟩
    ⟨["a", "b", "c"], [1, 3, 2], [0, 1/2, 0]⟩ rfl rfl⟩

/-- C2: constructing a single-model/single-dataset report (classification or
regression) with a dataset selector other than 'train' or 'test' raises a
ValueError; with 'train' or 'test' construction succeeds, and every
constructed report has its dataset field equal to 'train' or 'test'. -/
theorem claim_c2_dataset_validation (cm : ClassModel) (rm : RegModel) (ds : String) :
    (¬ (ds = "train" ∨ ds = "test") →
        SingleModelSingleDatasetMLClassReport.init cm ds = .error datasetErrMsg
          ∧ SingleModelSingleDatasetMLRegReport.init rm ds = .error datasetErrMsg)
    ∧ ((ds = "train" ∨ ds = "test") →
        (∃ rc, SingleModelSingleDatasetMLClassReport.init cm ds = .ok rc)
          ∧ (∃ rr, SingleModelSingleDatasetMLRegReport.init rm ds = .ok rr))
    ∧ (∀ rc, SingleModelSingleDatasetMLClassReport.init cm ds = .ok rc →
        rc.dataset = ds ∧ (rc.dataset = "train" ∨ rc.dataset = "test"))
    ∧ (∀ rr, SingleModelSingleDatasetMLRegReport.init rm ds = .ok rr →
        rr.dataset = ds ∧ (rr.dataset = "train" ∨ rr.dataset = "test")) := by
  refine ⟨fun h => ⟨initClass_err h, initReg_err h⟩,
    fun h => ⟨⟨_, initClass_valid cm h⟩, ⟨_, initReg_valid rm h⟩⟩, ?_, ?_⟩
  · intro rc hrc
    rcases initClass_ok hrc with ⟨hds, hr⟩
    subst hr
    exact ⟨rfl, hds⟩
  · intro rr hrr
    rcases initReg_ok hrr with ⟨hds, hr⟩
    subst hr
    exact ⟨rfl, hds⟩

/-- C3: cv_fit_statistics on a single-model/single-dataset report returns a
statistics table exactly when the model is cross-validated and the dataset is
'train' (the averaged table when averaged_across_folds is true, the per-fold
table otherwise); in every other case it returns None with one warning, and
it never raises. The scorer-contract hypotheses state that a cross-validated
model carries a cv scorer. -/
theorem claim_c3_cv_soft_failure (cm : ClassModel) (rm : RegModel) (dsc dsr : String) (av : Bool)
    (rc : SingleModelSingleDatasetMLClassReport) (rr : SingleModelSingleDatasetMLRegReport)
    (hrc : SingleModelSingleDatasetMLClassReport.init cm dsc = .ok rc)
    (hrr : SingleModelSingleDatasetMLRegReport.init rm dsr = .ok rr)
    (hcc : cm.is_cross_validated = true → cm.cv_scorer.isSome)
    (hcr : rm.is_cross_validated = true → rm.cv_scorer.isSome) :
    ((cm.is_cross_validated = true ∧ dsc = "train") →
      ∃ cv, cm.cv_scorer = some cv ∧
        rc.cv_fit_statistics av
          = .ok { value := some (if av then cv.stats_df else cv.cv_stats_df), warnings := [] })
    ∧ (¬ (cm.is_cross_validated = true ∧ dsc = "train") →
      ∃ w, rc.cv_fit_statistics av = .ok { value := none, warnings := [w] })
    ∧ ((rm.is_cross_validated = true ∧ dsr = "train") →
      ∃ cv, rm.cv_scorer = some cv ∧
        rr.cv_fit_statistics av
          = .ok { value := some (if av then cv.stats_df else cv.cv_stats_df), warnings := [] })
    ∧ (¬ (rm.is_cross_validated = true ∧ dsr = "train") →
      ∃ w, rr.cv_fit_statistics av = .ok { value := none, warnings := [w] }) := by
  rcases initClass_ok hrc with ⟨hdsc, hrceq⟩
  rcases initReg_ok hrr with ⟨hdsr, hrreq⟩
  subst hrceq
  subst hrreq
  refine ⟨?_, ?_, ?_, ?_⟩
  · rintro ⟨hcv, hds⟩
    subst hds
    rcases Option.isSome_iff_exists.mp (hcc hcv) with ⟨cv, hcveq⟩
    refine ⟨cv, hcveq, ?_⟩
    cases av <;>
      simp [SingleModelSingleDatasetMLClassReport.cv_fit_statistics, hcv, hcveq]
  · intro hneg
    cases hcv : cm.is_cross_validated with
    | false =>
      exact ⟨cvWarnMsg, by
        simp [SingleModelSingleDatasetMLClassReport.cv_fit_statistics, hcv]⟩
    | true =>
      have hds : dsc = "test" := by
        rcases hdsc with h | h
        · exact absurd ⟨hcv, h⟩ hneg
        · exact h
      subst hds
      exact ⟨cvTestWarnMsg, by
        simp [SingleModelSingleDatasetMLClassReport.cv_fit_statistics, hcv]⟩
  · rintro ⟨hcv, hds⟩
    subst hds
    rcases Option.isSome_iff_exists.mp (hcr hcv) with ⟨cv, hcveq⟩
    refine ⟨cv, hcveq, ?_⟩
    cases av <;>
      simp [SingleModelSingleDatasetMLRegReport.cv_fit_statistics, hcv, hcveq]
  · intro hneg
    cases hcv : rm.is_cross_validated with
    | false =>
      exact ⟨cvWarnMsg, by
        simp [SingleModelSingleDatasetMLRegReport.cv_fit_statistics, hcv]⟩
    | true =>
      have hds : dsr = "test" := by
        rcases hdsr with h | h
        · exact absurd ⟨hcv, h⟩ hneg
        · exact h
      subst hds
      exact ⟨cvTestWarnMsg, by
        simp [SingleModelSingleDatasetMLRegReport.cv_fit_statistics, hcv]⟩

/-- C3 witness: the characterization applied to the cross-validated binary
classification model on 'train' and the uncross-validated regression model
on 'test'. -/
theorem claim_c3_cv_soft_failure_witness :
    SingleModelSingleDatasetMLClassReport.init cmBin "train"
        = .ok { model := cmBin, is_binary := true, dataset := "train" }
    ∧ SingleModelSingleDatasetMLRegReport.init rmB "test"
        = .ok { model := rmB, dataset := "test" }
    ∧ (cmBin.is_cross_validated = true → cmBin.cv_scorer.isSome)
    ∧ (rmB.is_cross_validated = true → rmB.cv_scorer.isSome)
    ∧ (((cmBin.is_cross_validated = true ∧ "train" = "train") →
        ∃ cv, cmBin.cv_scorer = some cv ∧
          SingleModelSingleDatasetMLClassReport.cv_fit_statistics
              { model := cmBin, is_binary := true, dataset := "train" } true
            = .ok { value := some (if true then cv.stats_df else cv.cv_stats_df), warnings := [] })
      ∧ (¬ (cmBin.is_cross_validated = true ∧ "train" = "train") →
        ∃ w, SingleModelSingleDatasetMLClassReport.cv_fit_statistics
              { model := cmBin, is_binary := true, dataset := "train" } true
            = .ok { value := none, warnings := [w] })
      ∧ ((rmB.is_cross_validated = true ∧ "test" = "train") →
        ∃ cv, rmB.cv_scorer = some cv ∧
          SingleModelSingleDatasetMLRegReport.cv_fit_statistics
              { model := rmB, dataset := "test" } true
            = .ok { value := some (if true then cv.stats_df else cv.cv_stats_df), warnings := [] })
      ∧ (¬ (rmB.is_cross_validated = true ∧ "test" = "train") →
        ∃ w, SingleModelSingleDatasetMLRegReport.cv_fit_statistics
              { model := rmB, dataset := "test" } true
            = .ok { value := none, warnings := [w] })) :=
  ⟨rfl, rfl, fun _ => rfl, fun h => by simp [rmB] at h,
    claim_c3_cv_soft_failure cmBin rmB "train" "test" true
      { model := cmBin, is_binary := true, dataset := "train" }
      { model := rmB, dataset := "test" }
      rfl rfl (fun _ => rfl) (fun h => by simp [rmB] at h)⟩

/-- C4 counterexample: in a report over the cross-validated model `A`
followed by the uncross-validated model `B`, cv_fit_statistics passes the
first-model gate but the delegated per-model call does check `B`'s
cross-validation status individually: it emits the not-cross-validated
warning for `B` and `B` contributes no column, so the result is not the
concatenation of every model's cross-validated statistics produced without
individual checks (which would warn nothing). -/
theorem claim_c4_counterexample :
    (MLRegressionReport.init [rmA, rmB]).cv_fit_statistics true
      = .ok { value := some ["A_cv"], warnings := [cvWarnMsg] }
    ∧ [cvWarnMsg] ≠ ([] : List String) :=
  ⟨rfl, by simp⟩

/-- C4 amended: for every Multi-Model Report over a non-empty model
collection, cv_fit_statistics inspects only the first model's
cross-validation flag as its gate: if the first model is not cross-validated
it warns and returns None without consulting the others; otherwise it
concatenates the delegated per-model train-partition cv_fit_statistics
results (one report per distinct name), in which each model's own
cross-validation status is checked by the per-model call — cross-validated
models contribute their cv table, non-cross-validated models contribute an
absent (dropped) entry plus a warning. -/
theorem claim_c4_first_model_gate (m0 : RegModel) (rest : List RegModel)
    (c0 : ClassModel) (crest : List ClassModel) (av : Bool) :
    (m0.is_cross_validated = false →
      (MLRegressionReport.init (m0 :: rest)).cv_fit_statistics av
        = .ok { value := none, warnings := [cvWarnMsg] })
    ∧ (m0.is_cross_validated = true →
        ((m0 :: rest).map RegModel.name).Nodup →
        (∀ m ∈ m0 :: rest, m.is_cross_validated = true → m.cv_scorer.isSome) →
        (MLRegressionReport.init (m0 :: rest)).cv_fit_statistics av
          = .ok { value := some ((m0 :: rest).map (fun m =>
                      if m.is_cross_validated then cvTable m.cv_scorer av else [])).flatten
                  warnings := ((m0 :: rest).map (fun m =>
                      if m.is_cross_validated then ([] : List String) else [cvWarnMsg])).flatten })
    ∧ (c0.is_cross_validated = false →
      (MLClassificationReport.init (c0 :: crest)).cv_fit_statistics av
        = .ok { value := none, warnings := [cvWarnMsg] })
    ∧ (c0.is_cross_validated = true →
        ((c0 :: crest).map ClassModel.name).Nodup →
        (∀ m ∈ c0 :: crest, m.is_cross_validated = true → m.cv_scorer.isSome) →
        (MLClassificationReport.init (c0 :: crest)).cv_fit_statistics av
          = .ok { value := some ((c0 :: crest).map (fun m =>
                      if m.is_cross_validated then cvTable m.cv_scorer av else [])).flatten
                  warnings := ((c0 :: crest).map (fun m =>
                      if m.is_cross_validated then ([] : List String) else [cvWarnMsg])).flatten }) :=
  ⟨fun h0 => mlreg_cv_gate m0 rest av h0,
    fun h0 hnd hc => mlreg_cv_char m0 rest av h0 hnd hc,
    fun h0 => mlclass_cv_gate c0 crest av h0,
    fun h0 hnd hc => mlclass_cv_char c0 crest av h0 hnd hc⟩

/-- C4 witness: the amended characterization at the concrete heterogeneous
pair (`A` cross-validated, `B` not) and at the uncross-validated
classification model. -/
theorem claim_c4_first_model_gate_witness :
    rmA.is_cross_validated = true
    ∧ (([rmA, rmB].map RegModel.name).Nodup)
    ∧ (∀ m ∈ [rmA, rmB], m.is_cross_validated = true → m.cv_scorer.isSome)
    ∧ cmMulti.is_cross_validated = false
    ∧ (MLRegressionReport.init [rmA, rmB]).cv_fit_statistics true
        = .ok { value := some (([rmA, rmB].map (fun m =>
                    if m.is_cross_validated then cvTable m.cv_scorer true else [])).flatten)
                warnings := (([rmA, rmB].map (fun m =>
                    if m.is_cross_validated then ([] : List String) else [cvWarnMsg])).flatten) }
    ∧ (MLClassificationReport.init [cmMulti]).cv_fit_statistics true
        = .ok { value := none, warnings := [cvWarnMsg] } :=
  ⟨rfl, by decide, by decide, rfl,
    (claim_c4_first_model_gate rmA [rmB] cmMulti [] true).2.1 rfl (by decide) (by decide),
    (claim_c4_first_model_gate rmA [rmB] cmMulti [] true).2.2.1 rfl⟩

/-- C5: on a classification single-model/single-dataset report whose train
scorer is binary, fit_statistics_by_class returns None with a warning and
does not raise; on a non-binary report it returns the per-class table of the
scorer for the configured dataset. -/
theorem claim_c5_by_class_binary (cm : ClassModel) (ds : String)
    (rc : SingleModelSingleDatasetMLClassReport)
    (hrc : SingleModelSingleDatasetMLClassReport.init cm ds = .ok rc) :
    (cm.train_scorer.binary = true →
      rc.fit_statistics_by_class = { value := none, warnings := [byClassWarnMsg] })
    ∧ (cm.train_scorer.binary = false →
      rc.fit_statistics_by_class
        = { value := some (if ds = "train" then cm.train_scorer.stats_by_class_df
              else cm.test_scorer.stats_by_class_df), warnings := [] }) := by
  rcases initClass_ok hrc with ⟨hds, hrceq⟩
  subst hrceq
  constructor
  · intro hb
    simp [SingleModelSingleDatasetMLClassReport.fit_statistics_by_class, hb]
  · intro hb
    by_cases hdt : ds = "train"
    · simp [SingleModelSingleDatasetMLClassReport.fit_statistics_by_class, hb, hdt]
    · simp [SingleModelSingleDatasetMLClassReport.fit_statistics_by_class, hb, hdt]

/-- C5 witness: the binary branch at the concrete binary model on 'train'
and the multiclass branch at the concrete multiclass model on 'test'. -/
theorem claim_c5_by_class_binary_witness :
    SingleModelSingleDatasetMLClassReport.init cmBin "train"
        = .ok { model := cmBin, is_binary := true, dataset := "train" }
    ∧ SingleModelSingleDatasetMLClassReport.init cmMulti "test"
        = .ok { model := cmMulti, is_binary := false, dataset := "test" }
    ∧ SingleModelSingleDatasetMLClassReport.fit_statistics_by_class
        { model := cmBin, is_binary := true, dataset := "train" }
        = { value := none, warnings := [byClassWarnMsg] }
    ∧ SingleModelSingleDatasetMLClassReport.fit_statistics_by_class
        { model := cmMulti, is_binary := false, dataset := "test" }
        = { value := some (if "test" = "train" then cmMulti.train_scorer.stats_by_class_df
              else cmMulti.test_scorer.stats_by_class_df), warnings := [] } :=
  ⟨rfl, rfl,
    (claim_c5_by_class_binary cmBin "train"
      { model := cmBin, is_binary := true, dataset := "train" } rfl).1 rfl,
    (claim_c5_by_class_binary cmMulti "test"
      { model := cmMulti, is_binary := false, dataset := "test" } rfl).2 rfl⟩

/-- C7: plot_roc_curve returns None with a warning when the report is not
binary; when binary and the dataset is 'train' it takes scores and truths
from the overall (nested-cv) scorer if present, from the plain train scorer
otherwise; when the dataset is 'test' it uses the test scorer. -/
theorem claim_c7_roc_scorer_choice (cm : ClassModel) (ds : String)
    (rc : SingleModelSingleDatasetMLClassReport)
    (hrc : SingleModelSingleDatasetMLClassReport.init cm ds = .ok rc) :
    (cm.train_scorer.binary = false →
      rc.plot_roc_curve = { value := none, warnings := [rocWarnMsg] })
    ∧ (cm.train_scorer.binary = true → ds = "train" →
        ∀ ov, cm.train_overall_scorer = some ov →
          rc.plot_roc_curve
            = { value := some (plot_roc_curve_fn ov.y_pred_score ov.y_true), warnings := [] })
    ∧ (cm.train_scorer.binary = true → ds = "train" → cm.train_overall_scorer = none →
        rc.plot_roc_curve
          = { value := some (plot_roc_curve_fn cm.train_scorer.y_pred_score
                cm.train_scorer.y_true), warnings := [] })
    ∧ (cm.train_scorer.binary = true → ds = "test" →
        rc.plot_roc_curve
          = { value := some (plot_roc_curve_fn cm.test_scorer.y_pred_score
                cm.test_scorer.y_true), warnings := [] }) := by
  rcases initClass_ok hrc with ⟨hds, hrceq⟩
  subst hrceq
  refine ⟨?_, ?_, ?_, ?_⟩
  · intro hb
    simp [SingleModelSingleDatasetMLClassReport.plot_roc_curve, hb]
  · intro hb hdt ov hov
    subst hdt
    simp [SingleModelSingleDatasetMLClassReport.plot_roc_curve, hb, hov]
  · intro hb hdt hov
    subst hdt
    simp [SingleModelSingleDatasetMLClassReport.plot_roc_curve, hb, hov]
  · intro hb hdt
    subst hdt
    simp [SingleModelSingleDatasetMLClassReport.plot_roc_curve, hb]

/-- C7 witness: the overall-scorer preference at the concrete binary model
(whose nested cross validation produced an overall scorer) on 'train', and
the test-scorer branch on 'test'. -/
theorem claim_c7_roc_scorer_choice_witness :
    SingleModelSingleDatasetMLClassReport.init cmBin "train"
        = .ok { model := cmBin, is_binary := true, dataset := "train" }
    ∧ cmBin.train_scorer.binary = true
    ∧ cmBin.train_overall_scorer
        = some { binary := true, stats_df := ["cb_ov"], stats_by_class_df := ["cb_ov_cls"]
                 y_pred_score := [7/10], y_true := [1] }
    ∧ SingleModelSingleDatasetMLClassReport.plot_roc_curve
        { model := cmBin, is_binary := true, dataset := "train" }
        = { value := some (plot_roc_curve_fn [7/10] [1]), warnings := [] }
    ∧ SingleModelSingleDatasetMLClassReport.plot_roc_curve
        { model := cmBin, is_binary := true, dataset := "test" }
        = { value := some (plot_roc_curve_fn cmBin.test_scorer.y_pred_score
              cmBin.test_scorer.y_true), warnings := [] } :=
  ⟨rfl, rfl, rfl,
    (claim_c7_roc_scorer_choice cmBin "train"
      { model := cmBin, is_binary := true, dataset := "train" } rfl).2.1 rfl rfl
      { binary := true, stats_df := ["cb_ov"], stats_by_class_df := ["cb_ov_cls"]
        y_pred_score := [7/10], y_true := [1] } rfl,
    (claim_c7_roc_scorer_choice cmBin "test"
      { model := cmBin, is_binary := true, dataset := "test" } rfl).2.2.2 rfl rfl⟩

/-- C6 counterexample: with two models that share the name `A`, the
name-keyed report dict keeps only the last one, so fit_statistics('train')
returns that model's table alone instead of the concatenation of each
supplied model's table in order; and over an empty collection the
concatenation raises instead of returning a table. -/
theorem claim_c6_counterexample :
    (MLRegressionReport.init [rmDup, rmA]).fit_statistics "train" = .ok ["A_tr"]
    ∧ (["A_tr"] : DF) ≠ ["D_tr", "A_tr"]
    ∧ (MLRegressionReport.init ([] : List RegModel)).fit_statistics "train"
        = .error "ValueError: No objects to concatenate" :=
  ⟨rfl, by simp, rfl⟩

/-- C6 amended: for every Multi-Model Report over at least one model with
pairwise-distinct names, fit_statistics(dataset) returns the column-wise
concatenation of each model's statistics table for the requested partition
('train' selects the train tables, anything else the test tables), with the
column grouping order equal to the order in which the models were
supplied. -/
theorem claim_c6_fit_statistics_order (models : List RegModel) (cmodels : List ClassModel)
    (ds : String)
    (hnd : (models.map RegModel.name).Nodup) (hne : models ≠ [])
    (hndc : (cmodels.map ClassModel.name).Nodup) (hnec : cmodels ≠ []) :
    (MLRegressionReport.init models).fit_statistics ds
      = .ok (models.map (fun m =>
          if ds = "train" then m.train_scorer.stats_df else m.test_scorer.stats_df)).flatten
    ∧ (MLClassificationReport.init cmodels).fit_statistics ds
      = .ok (cmodels.map (fun m =>
          if ds = "train" then m.train_scorer.stats_df else m.test_scorer.stats_df)).flatten :=
  ⟨mlreg_fit_statistics_char models ds hnd hne,
    mlclass_fit_statistics_char cmodels ds hndc hnec⟩

/-- C6 witness: the amended statement at the two-model regression collection
(`A`, `B`) and the two-model classification collection on 'train'. -/
theorem claim_c6_fit_statistics_order_witness :
    (([rmA, rmB].map RegModel.name).Nodup) ∧ ([rmA, rmB] ≠ ([] : List RegModel))
    ∧ (([cmBin, cmMulti].map ClassModel.name).Nodup)
    ∧ ([cmBin, cmMulti] ≠ ([] : List ClassModel))
    ∧ ((MLRegressionReport.init [rmA, rmB]).fit_statistics "train"
        = .ok ([rmA, rmB].map (fun m =>
            if "train" = "train" then m.train_scorer.stats_df else m.test_scorer.stats_df)).flatten
      ∧ (MLClassificationReport.init [cmBin, cmMulti]).fit_statistics "train"
        = .ok ([cmBin, cmMulti].map (fun m =>
            if "train" = "train" then m.train_scorer.stats_df else m.test_scorer.stats_df)).flatten) :=
  ⟨by decide, by decide, by decide, by decide,
    claim_c6_fit_statistics_order [rmA, rmB] [cmBin, cmMulti] "train"
      (by decide) (by decide) (by decide) (by decide)⟩

/-- C8: in a Multi-Model Report whose collection contains two or more models
with the same name, the name lookups (model, model_report and the indexing
operator) resolve every name to the model appearing latest in the supplied
order — earlier models with the same name are dropped from the lookups —
and construction itself raises no error (the initializer is total). -/
theorem claim_c8_duplicate_names_overwrite (models : List RegModel) (cmodels : List ClassModel)
    (_hdup : ¬ (models.map RegModel.name).Nodup)
    (_hdupc : ¬ (cmodels.map ClassModel.name).Nodup) :
    (∀ nm, (MLRegressionReport.init models).model nm
        = (models.filter (fun m => m.name == nm)).getLast?
      ∧ (MLRegressionReport.init models).model_report nm
        = ((models.filter (fun m => m.name == nm)).getLast?).map SingleModelMLRegReport.mk
      ∧ (MLRegressionReport.init models).getitem nm
        = (MLRegressionReport.init models).model_report nm)
    ∧ (∀ nm, (MLClassificationReport.init cmodels).model nm
        = (cmodels.filter (fun m => m.name == nm)).getLast?
      ∧ (MLClassificationReport.init cmodels).model_report nm
        = ((cmodels.filter (fun m => m.name == nm)).getLast?).map SingleModelMLClassReport.mk
      ∧ (MLClassificationReport.init cmodels).getitem nm
        = (MLClassificationReport.init cmodels).model_report nm) := by
  constructor
  · intro nm
    refine ⟨?_, ?_, rfl⟩
    · show dictGet (pyDict RegModel.name id models) nm = _
      rw [dictGet_pyDict]
      simp
    · exact dictGet_pyDict RegModel.name SingleModelMLRegReport.mk models nm
  · intro nm
    refine ⟨?_, ?_, rfl⟩
    · show dictGet (pyDict ClassModel.name id cmodels) nm = _
      rw [dictGet_pyDict]
      simp
    · exact dictGet_pyDict ClassModel.name SingleModelMLClassReport.mk cmodels nm

/-- C8 witness: the lookups over the duplicate-name collections resolve the
shared names to the later models (`rmA` and `cmBinDup`). -/
theorem claim_c8_duplicate_names_overwrite_witness :
    (¬ (([rmDup, rmA].map RegModel.name).Nodup))
    ∧ (¬ (([cmBin, cmBinDup].map ClassModel.name).Nodup))
    ∧ ((∀ nm, (MLRegressionReport.init [rmDup, rmA]).model nm
          = ([rmDup, rmA].filter (fun m => m.name == nm)).getLast?
        ∧ (MLRegressionReport.init [rmDup, rmA]).model_report nm
          = (([rmDup, rmA].filter (fun m => m.name == nm)).getLast?).map SingleModelMLRegReport.mk
        ∧ (MLRegressionReport.init [rmDup, rmA]).getitem nm
          = (MLRegressionReport.init [rmDup, rmA]).model_report nm)
      ∧ (∀ nm, (MLClassificationReport.init [cmBin, cmBinDup]).model nm
          = ([cmBin, cmBinDup].filter (fun m => m.name == nm)).getLast?
        ∧ (MLClassificationReport.init [cmBin, cmBinDup]).model_report nm
          = (([cmBin, cmBinDup].filter (fun m => m.name == nm)).getLast?).map
              SingleModelMLClassReport.mk
        ∧ (MLClassificationReport.init [cmBin, cmBinDup]).getitem nm
          = (MLClassificationReport.init [cmBin, cmBinDup]).model_report nm))
    ∧ (MLRegressionReport.init [rmDup, rmA]).model "A" = some rmA
    ∧ (MLClassificationReport.init [cmBin, cmBinDup]).model "cb" = some cmBinDup :=
  ⟨by decide, by decide,
    claim_c8_duplicate_names_overwrite [rmDup, rmA] [cmBin, cmBinDup] (by decide) (by decide),
    rfl, rfl⟩

/-- C9: over an empty model collection, cv_fit_statistics unconditionally
reads the first element of the model list and so raises a hard IndexError
rather than warning and returning None. -/
theorem claim_c9_empty_collection_index_error (av : Bool) :
    (MLRegressionReport.init ([] : List RegModel)).cv_fit_statistics av = .error indexErrMsg
    ∧ (MLClassificationReport.init ([] : List ClassModel)).cv_fit_statistics av
        = .error indexErrMsg :=
  ⟨rfl, rfl⟩

/-- C10: the Multi-Model fit_statistics performs no validation of its
dataset argument: for every string other than 'train' the result is
identical to fit_statistics('test'), and over a non-empty collection it is a
returned table (no error; the method has no warning path at all). -/
theorem claim_c10_no_dataset_validation (models : List RegModel) (cmodels : List ClassModel)
    (ds : String) (hds : ds ≠ "train") :
    ((MLRegressionReport.init models).fit_statistics ds
        = (MLRegressionReport.init models).fit_statistics "test")
    ∧ ((MLClassificationReport.init cmodels).fit_statistics ds
        = (MLClassificationReport.init cmodels).fit_statistics "test")
    ∧ (models ≠ [] → ∃ df, (MLRegressionReport.init models).fit_statistics ds = .ok df)
    ∧ (cmodels ≠ [] → ∃ df, (MLClassificationReport.init cmodels).fit_statistics ds = .ok df) := by
  have htest : ("test" : String) ≠ "train" := by decide
  refine ⟨?_, ?_, ?_, ?_⟩
  · rw [MLRegressionReport.fit_statistics, if_neg hds,
      MLRegressionReport.fit_statistics, if_neg htest]
  · rw [MLClassificationReport.fit_statistics, if_neg hds,
      MLClassificationReport.fit_statistics, if_neg htest]
  · intro hne
    rw [MLRegressionReport.fit_statistics, if_neg hds]
    rw [exceptMapList_ok _ (fun rep : SingleModelMLRegReport => rep.model.test_scorer.stats_df) _
      (fun rep _ => by simp [test_report_reg, SingleModelSingleDatasetMLRegReport.fit_statistics])]
    rw [except_bind_ok]
    have hvne : dictValues (MLRegressionReport.init models).id_to_report ≠ [] := by
      rcases models with _ | ⟨m, ms⟩
      · exact absurd rfl hne
      · show dictValues (pyDict RegModel.name SingleModelMLRegReport.mk (m :: ms)) ≠ []
        have hpos := pyDict_length_pos RegModel.name SingleModelMLRegReport.mk m ms
        intro hcon
        rw [dictValues] at hcon
        have hlen := congrArg List.length hcon
        simp only [List.length_map, List.length_nil] at hlen
        omega
    exact ⟨_, pd_concat_cols_map_some _ (by simp [hvne])⟩
  · intro hne
    rw [MLClassificationReport.fit_statistics, if_neg hds]
    rw [exceptMapList_ok _ (fun rep : SingleModelMLClassReport => rep.model.test_scorer.stats_df) _
      (fun rep _ => by simp [test_report_class, SingleModelSingleDatasetMLClassReport.fit_statistics])]
    rw [except_bind_ok]
    have hvne : dictValues (MLClassificationReport.init cmodels).id_to_report ≠ [] := by
      rcases cmodels with _ | ⟨m, ms⟩
      · exact absurd rfl hne
      · show dictValues (pyDict ClassModel.name SingleModelMLClassReport.mk (m :: ms)) ≠ []
        have hpos := pyDict_length_pos ClassModel.name SingleModelMLClassReport.mk m ms
        intro hcon
        rw [dictValues] at hcon
        have hlen := congrArg List.length hcon
        simp only [List.length_map, List.length_nil] at hlen
        omega
    exact ⟨_, pd_concat_cols_map_some _ (by simp [hvne])⟩

/-- C10 witness: fit_statistics('validation') over the concrete collections
equals fit_statistics('test') and returns tables. -/
theorem claim_c10_no_dataset_validation_witness :
    ("validation" : String) ≠ "train"
    ∧ ((MLRegressionReport.init [rmA, rmB]).fit_statistics "validation"
        = (MLRegressionReport.init [rmA, rmB]).fit_statistics "test")
    ∧ ((MLClassificationReport.init [cmBin, cmMulti]).fit_statistics "validation"
        = (MLClassificationReport.init [cmBin, cmMulti]).fit_statistics "test")
    ∧ ([rmA, rmB] ≠ ([] : List RegModel) →
        ∃ df, (MLRegressionReport.init [rmA, rmB]).fit_statistics "validation" = .ok df)
    ∧ ([cmBin, cmMulti] ≠ ([] : List ClassModel) →
        ∃ df, (MLClassificationReport.init [cmBin, cmMulti]).fit_statistics "validation"
          = .ok df) :=
  ⟨by decide,
    (claim_c10_no_dataset_validation [rmA, rmB] [cmBin, cmMulti] "validation" (by decide)).1,
    (claim_c10_no_dataset_validation [rmA, rmB] [cmBin, cmMulti] "validation" (by decide)).2.1,
    (claim_c10_no_dataset_validation [rmA, rmB] [cmBin, cmMulti] "validation" (by decide)).2.2.1,
    (claim_c10_no_dataset_validation [rmA, rmB] [cmBin, cmMulti] "validation" (by decide)).2.2.2⟩

end Claims

end TabularMagic
